import Mathlib

/-!
Verification of `create_and_fetch_identity` (src/function.py).

The Python function, given a wallet address, performs a sequence of HTTP
calls against a remote identity service:

1. a best-effort existence probe (POST to the fetch endpoint), returning
   immediately when it yields a truthy `data` value different from `"0"`;
2. otherwise a create call (POST to the create endpoint), whose failure
   (transport error, `raise_for_status()` raising, or `.json()` raising)
   aborts the whole resolution with `None`;
3. a fixed `asyncio.sleep(10)` settle delay;
4. a retry loop of `max_retries = 3` fetch attempts with
   `retry_delays = [5, 10, 15]`, sleeping `retry_delays[attempt]` after
   every attempt except the last, and returning the first truthy
   non-`"0"` `data` value found;
5. `None` when all attempts are exhausted; a top-level
   `except Exception` converts any other failure into `None`.

We embed the function shallowly: the behaviour of the remote service (and
of session construction) is an explicit `Env`, and the function is a pure
Lean function from its arguments and the environment to the returned value
together with the trace of observable actions (HTTP calls and sleeps).
The `print` diagnostics, the URL construction from `UDP_BASE_URL` and the
`aiohttp` session object itself have no influence on the returned value or
on which requests are issued, and are not modelled.
-/

/-- A JSON value as it may appear in the `"data"` field of a response.
Python is dynamically typed, so the field may hold a string, a number,
a boolean or `null`. -/
inductive Json where
  | jstr (s : String)
  | jnum (n : Int)
  | jbool (b : Bool)
  | jnull
deriving DecidableEq, Repr

/-- Python truthiness of a JSON value, as tested by
`if fetch_data.get("data") and ...` in src/function.py: the empty string,
the number `0`, `False` and `None` are falsy, everything else is truthy. -/
def truthy : Json → Bool
  | .jstr s => !s.isEmpty
  | .jnum n => n != 0
  | .jbool b => b
  | .jnull => false

/-- The condition `data.get("data") and data["data"] != "0"` from
src/function.py (lines 24-27 for the probe, line 67 for the fetch loop):
the argument is the value of the `"data"` key (`none` when the key is
absent, as `.get("data")` returns `None`, which is falsy).  Note that the
comparison `!= "0"` is against the *string* `"0"`; a numeric `0` is
unequal to it in Python but falsy, hence rejected by the first conjunct. -/
def dataOk : Option Json → Bool
  | none => false
  | some v => truthy v && v != Json.jstr "0"

/-- Outcome of one HTTP POST as observed by src/function.py:

* `err` — the request itself raised (transport error, timeout);
* `resp statusOk body` — a response arrived.  `statusOk` records whether
  `raise_for_status()` passes on it (aiohttp raises for status ≥ 400).
  `body = none` records that `.json()` raises (the body is not parseable
  as a JSON object); `body = some field` records a parsed object whose
  `"data"` key holds `field` (`field = none` when the key is absent). -/
inductive Outcome where
  | err
  | resp (statusOk : Bool) (body : Option (Option Json))
deriving DecidableEq, Repr

/-- What one call to the fetch endpoint yields for the caller: the valid
identifier when the call succeeds with a truthy non-`"0"` `data` value;
`none` on a raised request, a failing status, an unparseable body, or a
sentinel/absent/falsy `data` value.  This is the shared shape of the probe
block (lines 17-36) and of each loop attempt (lines 59-79) of
src/function.py: every raise inside those blocks is caught and treated
like a missing identifier. -/
def resultOf : Outcome → Option Json
  | .err => none
  | .resp statusOk body =>
    if statusOk then
      match body with
      | none => none
      | some field => if dataOk field then field else none
    else none

/-- The behaviour of the environment for one invocation: whether
`aiohttp.ClientSession(...)` construction raises, the outcome of the
existence probe, the outcome of the create call, and the outcome of each
fetch attempt of the retry loop (indexed from 0). -/
structure Env where
  sessionErr : Bool
  probe : Outcome
  create : Outcome
  fetch : Nat → Outcome

/-- Observable actions of one invocation: a POST to the fetch endpoint,
a POST to the create endpoint (each carrying the `walletAddress` sent in
the request body), and an `asyncio.sleep` of the given number of
seconds. -/
inductive Event where
  | callFetch (walletAddress : String)
  | callCreate (walletAddress : String)
  | sleep (seconds : Nat)
deriving DecidableEq, Repr

/-- `max_retries = 3` from src/function.py line 55. -/
def max_retries : Nat := 3

/-- `retry_delays = [5, 10, 15]` from src/function.py line 56. -/
def retry_delays : List Nat := [5, 10, 15]

/-- The body of `for attempt in range(max_retries)` (src/function.py
lines 58-85), iterated over the list of remaining attempt indices.  Each
attempt POSTs to the fetch endpoint; a valid `data` value is returned at
once, otherwise the attempt is counted as failed and, when
`attempt < max_retries - 1`, the loop sleeps `retry_delays[attempt]`
before the next attempt. -/
def fetchAttempts (env : Env) (addr : String) : List Nat → Option Json × List Event
  | [] => (none, [])
  | attempt :: rest =>
    let ev := Event.callFetch addr
    match resultOf (env.fetch attempt) with
    | some v => (some v, [ev])
    | none =>
      let tailRun := fetchAttempts env addr rest
      if attempt < max_retries - 1 then
        (tailRun.1, ev :: Event.sleep (retry_delays.getD attempt 0) :: tailRun.2)
      else
        (tailRun.1, ev :: tailRun.2)

/-- The whole retry loop: `for attempt in range(max_retries)`. -/
def fetch_loop (env : Env) (addr : String) : Option Json × List Event :=
  fetchAttempts env addr (List.range max_retries)

/-- Shallow embedding of `create_and_fetch_identity` (src/function.py).
`user` and `headers` are the first and third Python parameters; they are
accepted (at arbitrary types, as Python is untyped) and, as in the source,
never used.  Returns the Python return value (`none` embeds `None`)
paired with the trace of observable actions. -/
def create_and_fetch_identity {α β : Type} (user : α) (user_address : String)
    (headers : β) (env : Env) : Option Json × List Event :=
  if env.sessionErr then
    -- session construction raised: caught by the top-level except, None
    (none, [])
  else
    let probeEv := Event.callFetch user_address
    match resultOf env.probe with
    | some v =>
      -- existing identity found by the probe: return it immediately
      (some v, [probeEv])
    | none =>
      -- probe failure swallowed by the inner `except`; create an identity
      let createEv := Event.callCreate user_address
      match env.create with
      | .err => (none, [probeEv, createEv])
      | .resp statusOk body =>
        if statusOk then
          match body with
          | none =>
            -- 2xx but `.json()` raised: top-level except returns None
            (none, [probeEv, createEv])
          | some _ =>
            -- create succeeded: settle delay, then the retry loop
            let run := fetch_loop env user_address
            (run.1, probeEv :: createEv :: Event.sleep 10 :: run.2)
        else
          -- raise_for_status() raised: top-level except returns None
          (none, [probeEv, createEv])

/-- Is an event a POST to the create endpoint? -/
def isCreateEvent : Event → Bool
  | .callCreate _ => true
  | _ => false

/-- Is an event a POST to the fetch endpoint? -/
def isFetchEvent : Event → Bool
  | .callFetch _ => true
  | _ => false

/-- Number of create-endpoint calls in a trace. -/
def countCreate (tr : List Event) : Nat := (tr.filter isCreateEvent).length

/-- Number of fetch-endpoint calls in a trace. -/
def countFetch (tr : List Event) : Nat := (tr.filter isFetchEvent).length

/-- The probe outcomes enumerated by the spec as leading to creation:
the call raises (transport error), a failing status, a malformed body,
an absent `data` field, a `null` `data` field, or the sentinel `"0"`. -/
def probeFailCase (o : Outcome) : Prop :=
  o = .err
  ∨ (∃ b, o = .resp false b)
  ∨ o = .resp true none
  ∨ o = .resp true (some none)
  ∨ o = .resp true (some (some .jnull))
  ∨ o = .resp true (some (some (.jstr "0")))

-- Concrete environments used to instantiate the theorems below.

/-- Probe answers 2xx with `{"data": ""}`; the create call then fails. -/
def c1Env : Env :=
  { sessionErr := false
    probe := .resp true (some (some (.jstr "")))
    create := .err
    fetch := fun _ => .err }

/-- Probe answers 2xx with `{"data": "abc123"}`. -/
def c1aEnv : Env :=
  { sessionErr := false
    probe := .resp true (some (some (.jstr "abc123")))
    create := .err
    fetch := fun _ => .err }

/-- Probe raises; the create call also raises. -/
def c2Env : Env :=
  { sessionErr := false
    probe := .err
    create := .err
    fetch := fun _ => .err }

/-- Probe answers the sentinel; the create call answers a failing status. -/
def c3Env : Env :=
  { sessionErr := false
    probe := .resp true (some (some (.jstr "0")))
    create := .resp false none
    fetch := fun _ => .err }

/-- Probe answers the sentinel; create succeeds; every fetch raises. -/
def c4Env : Env :=
  { sessionErr := false
    probe := .resp true (some (some (.jstr "0")))
    create := .resp true (some none)
    fetch := fun _ => .err }

/-- Probe answers the sentinel; create succeeds; the first two fetch
attempts answer the sentinel and the third answers `{"data": "xyz"}`. -/
def c5Env : Env :=
  { sessionErr := false
    probe := .resp true (some (some (.jstr "0")))
    create := .resp true (some none)
    fetch := fun i =>
      if i < 2 then .resp true (some (some (.jstr "0")))
      else .resp true (some (some (.jstr "xyz"))) }

/-- Probe answers the sentinel; create succeeds; every fetch attempt
answers the sentinel `{"data": "0"}`. -/
def c6Env : Env :=
  { sessionErr := false
    probe := .resp true (some (some (.jstr "0")))
    create := .resp true (some none)
    fetch := fun _ => .resp true (some (some (.jstr "0"))) }

/-- Probe answers 2xx with `{"data": ""}` (falsy); create then raises. -/
def c9Env : Env :=
  { sessionErr := false
    probe := .resp true (some (some (.jstr "")))
    create := .err
    fetch := fun _ => .err }

/-- Probe answers the sentinel; create answers 2xx with an unparseable
body. -/
def c10Env : Env :=
  { sessionErr := false
    probe := .resp true (some (some (.jstr "0")))
    create := .resp true none
    fetch := fun _ => .err }

-- Helper lemmas.

/-- Every probe outcome the spec lists as a failure yields no identifier. -/
theorem probeFailCase_resultOf {o : Outcome} (h : probeFailCase o) :
    resultOf o = none := by
  rcases h with h | ⟨b, h⟩ | h | h | h | h <;> subst h <;> rfl

/-- The retry loop issues no create-endpoint call. -/
theorem fetchAttempts_no_create (env : Env) (addr : String) (l : List Nat) :
    countCreate (fetchAttempts env addr l).2 = 0 := by
  induction l with
  | nil => rfl
  | cons a rest ih =>
    simp only [fetchAttempts]
    cases hres : resultOf (env.fetch a) with
    | some v => rfl
    | none =>
      by_cases hlt : a < max_retries - 1 <;>
        simp [hlt, countCreate, List.filter, isCreateEvent] at ih ⊢ <;>
        exact ih

/-- The retry loop makes at most one fetch call per attempt index. -/
theorem fetchAttempts_fetch_le (env : Env) (addr : String) (l : List Nat) :
    countFetch (fetchAttempts env addr l).2 ≤ l.length := by
  induction l with
  | nil => exact Nat.le_refl 0
  | cons a rest ih =>
    simp only [fetchAttempts]
    cases hres : resultOf (env.fetch a) with
    | some v => simp [countFetch, List.filter, isFetchEvent]
    | none =>
      by_cases h : a < max_retries - 1 <;>
        simp only [h, if_true, if_false, List.length_cons] <;>
        simp [countFetch, List.filter, isFetchEvent] at ih ⊢ <;>
        omega

/-- The trace of a nonempty run of the loop starts with a fetch call. -/
theorem fetchAttempts_head (env : Env) (addr : String) (a : Nat) (l : List Nat) :
    (fetchAttempts env addr (a :: l)).2.head? = some (Event.callFetch addr) := by
  simp only [fetchAttempts]
  cases hres : resultOf (env.fetch a) with
  | some v => rfl
  | none => by_cases h : a < max_retries - 1 <;> simp [h]

/-- Any identifier the loop returns was delivered by one of its attempts. -/
theorem fetchAttempts_provenance (env : Env) (addr : String) (l : List Nat) :
    (fetchAttempts env addr l).1 = none
    ∨ ∃ v, (fetchAttempts env addr l).1 = some v
        ∧ ∃ i ∈ l, resultOf (env.fetch i) = some v := by
  induction l with
  | nil => exact Or.inl rfl
  | cons a rest ih =>
    simp only [fetchAttempts]
    cases hres : resultOf (env.fetch a) with
    | some v =>
      exact Or.inr ⟨v, rfl, a, List.mem_cons_self a rest, hres⟩
    | none =>
      have step : ∀ tr : List Event,
          ((fetchAttempts env addr rest).1, tr).1 = none
          ∨ ∃ v, ((fetchAttempts env addr rest).1, tr).1 = some v
              ∧ ∃ i ∈ a :: rest, resultOf (env.fetch i) = some v := by
        intro tr
        rcases ih with ih | ⟨v, hv, i, hi, hres2⟩
        · exact Or.inl ih
        · exact Or.inr ⟨v, hv, i, List.mem_cons_of_mem a hi, hres2⟩
      by_cases h : a < max_retries - 1 <;> simp only [h, if_true, if_false] <;>
        exact step _

/-- C1 (counterexample): a probe response `{"data": ""}` has its `data`
field present and different from `"0"`, yet the function does not return
`""` — it proceeds to call the create endpoint, because the code also
requires the value to be truthy. -/
theorem probe_present_nonzero_not_returned :
    c1Env.probe = Outcome.resp true (some (some (Json.jstr "")))
    ∧ Json.jstr "" ≠ Json.jstr "0"
    ∧ (create_and_fetch_identity () "w1" () c1Env).1 ≠ some (Json.jstr "")
    ∧ countCreate (create_and_fetch_identity () "w1" () c1Env).2 = 1 := by
  refine ⟨rfl, by decide, by decide, rfl⟩

/-- C1 (amended): when the probe succeeds (status passes, body parses)
with a `data` field that is present, truthy, and not equal to `"0"`, the
function returns that value immediately and its trace is the probe call
alone — in particular the create endpoint is never called. -/
theorem probe_hit_short_circuits {α β : Type} (user : α) (user_address : String)
    (headers : β) (env : Env) (v : Json) (hs : env.sessionErr = false)
    (hb : env.probe = Outcome.resp true (some (some v)))
    (ht : truthy v = true) (hv : v ≠ Json.jstr "0") :
    create_and_fetch_identity user user_address headers env =
      (some v, [Event.callFetch user_address]) := by
  have hres : resultOf env.probe = some v := by
    rw [hb]
    simp [resultOf, dataOk, ht, bne_iff_ne, hv]
  unfold create_and_fetch_identity
  rw [hs]
  simp [hres]

/-- C1 witness: the amended claim at the concrete probe response
`{"data": "abc123"}`. -/
theorem probe_hit_short_circuits_witness :
    create_and_fetch_identity () "wa" () c1aEnv =
      (some (Json.jstr "abc123"), [Event.callFetch "wa"]) :=
  probe_hit_short_circuits () "wa" () c1aEnv (Json.jstr "abc123") rfl rfl
    (by decide) (by decide)

/-- C2: whenever the probe fails in one of the ways the spec lists
(sentinel `"0"`, absent or `null` data field, transport error, failing
status, malformed body), the failure is swallowed and the create endpoint
is called exactly once. -/
theorem probe_fail_creates_once {α β : Type} (user : α) (user_address : String)
    (headers : β) (env : Env) (hs : env.sessionErr = false)
    (hp : probeFailCase env.probe) :
    countCreate (create_and_fetch_identity user user_address headers env).2 = 1 := by
  have hres := probeFailCase_resultOf hp
  unfold create_and_fetch_identity
  rw [hs]
  simp only [Bool.false_eq_true, if_false, hres]
  cases hc : env.create with
  | err => rfl
  | resp statusOk body =>
    cases statusOk with
    | false => rfl
    | true =>
      cases body with
      | none => rfl
      | some b =>
        have hloop := fetchAttempts_no_create env user_address (List.range max_retries)
        simp [countCreate, isCreateEvent, fetch_loop] at hloop ⊢
        exact hloop

/-- C2 witness: probe raises, create raises; create is still called once. -/
theorem probe_fail_creates_once_witness :
    countCreate (create_and_fetch_identity () "w2" () c2Env).2 = 1 :=
  probe_fail_creates_once () "w2" () c2Env rfl (Or.inl rfl)

/-- C3: when the create call raises in transport or its status check
fails, the function returns `None` and its whole trace is the probe call
followed by the create call — the settle delay and the fetch retry loop
are never reached. -/
theorem create_fail_aborts {α β : Type} (user : α) (user_address : String)
    (headers : β) (env : Env) (hs : env.sessionErr = false)
    (hp : resultOf env.probe = none)
    (hc : env.create = Outcome.err ∨ ∃ b, env.create = Outcome.resp false b) :
    create_and_fetch_identity user user_address headers env =
      (none, [Event.callFetch user_address, Event.callCreate user_address]) := by
  unfold create_and_fetch_identity
  rw [hs]
  simp only [Bool.false_eq_true, if_false, hp]
  rcases hc with hc | ⟨b, hc⟩ <;> rw [hc] <;> rfl

/-- C3 witness: probe answers the sentinel, create answers a failing
status; the run aborts after exactly the two calls. -/
theorem create_fail_aborts_witness :
    create_and_fetch_identity () "w3" () c3Env =
      (none, [Event.callFetch "w3", Event.callCreate "w3"]) :=
  create_fail_aborts () "w3" () c3Env rfl rfl (Or.inr ⟨none, rfl⟩)

/-- C4: whenever the create call succeeds (status passes and the body
parses), the trace continues with a sleep of exactly 10 seconds placed
after the create call and before the first fetch call of the retry
loop. -/
theorem create_success_settles {α β : Type} (user : α) (user_address : String)
    (headers : β) (env : Env) (b : Option Json) (hs : env.sessionErr = false)
    (hp : resultOf env.probe = none)
    (hc : env.create = Outcome.resp true (some b)) :
    ∃ tr, (create_and_fetch_identity user user_address headers env).2 =
        [Event.callFetch user_address, Event.callCreate user_address,
         Event.sleep 10] ++ tr
      ∧ tr.head? = some (Event.callFetch user_address) := by
  refine ⟨(fetch_loop env user_address).2, ?_, ?_⟩
  · unfold create_and_fetch_identity
    rw [hs]
    simp [hp, hc]
  · have hr : List.range max_retries = 0 :: [1, 2] := rfl
    unfold fetch_loop
    rw [hr]
    exact fetchAttempts_head env user_address 0 [1, 2]

/-- C4 witness: create succeeds, every fetch attempt raises; the sleep of
10 seconds still separates the create call from the first fetch call. -/
theorem create_success_settles_witness :
    ∃ tr, (create_and_fetch_identity () "w4" () c4Env).2 =
        [Event.callFetch "w4", Event.callCreate "w4", Event.sleep 10] ++ tr
      ∧ tr.head? = some (Event.callFetch "w4") :=
  create_success_settles () "w4" () c4Env none rfl rfl rfl

/-- C5: on the fetch sequence `{"data":"0"}`, `{"data":"0"}`,
`{"data":"xyz"}` the function returns `"xyz"` after exactly three fetch
calls, with sleeps of 5 then 10 seconds between them and no sleep after
the last; moreover, in every environment the retry loop makes at most
`max_retries = 3` fetch calls. -/
theorem retry_schedule :
    create_and_fetch_identity () "w5" () c5Env =
      (some (Json.jstr "xyz"),
        [Event.callFetch "w5", Event.callCreate "w5", Event.sleep 10,
         Event.callFetch "w5", Event.sleep 5,
         Event.callFetch "w5", Event.sleep 10,
         Event.callFetch "w5"])
    ∧ ∀ (env : Env) (addr : String),
        countFetch (fetch_loop env addr).2 ≤ max_retries := by
  constructor
  · rfl
  · intro env addr
    have h := fetchAttempts_fetch_le env addr (List.range max_retries)
    simpa [fetch_loop] using h

/-- C6: when the probe fails, create succeeds and every one of the three
fetch attempts fails to deliver an identifier, the function returns `None`
and its trace is exactly probe, create, the 10-second settle sleep, and
three fetch calls separated by sleeps of 5 and 10 seconds — no call and no
sleep after the third attempt. -/
theorem exhaustion_absence {α β : Type} (user : α) (user_address : String)
    (headers : β) (env : Env) (b : Option Json) (hs : env.sessionErr = false)
    (hp : resultOf env.probe = none)
    (hc : env.create = Outcome.resp true (some b))
    (hf : ∀ i, i < max_retries → resultOf (env.fetch i) = none) :
    create_and_fetch_identity user user_address headers env =
      (none,
        [Event.callFetch user_address, Event.callCreate user_address,
         Event.sleep 10,
         Event.callFetch user_address, Event.sleep 5,
         Event.callFetch user_address, Event.sleep 10,
         Event.callFetch user_address]) := by
  unfold create_and_fetch_identity
  rw [hs]
  simp only [Bool.false_eq_true, if_false, hp, hc]
  have hr : List.range max_retries = 0 :: 1 :: 2 :: [] := rfl
  simp only [fetch_loop, hr, fetchAttempts,
    hf 0 (by decide), hf 1 (by decide), hf 2 (by decide)]
  rfl

/-- C6 witness: every fetch attempt answers the sentinel `{"data":"0"}`. -/
theorem exhaustion_absence_witness :
    create_and_fetch_identity () "w6" () c6Env =
      (none,
        [Event.callFetch "w6", Event.callCreate "w6", Event.sleep 10,
         Event.callFetch "w6", Event.sleep 5,
         Event.callFetch "w6", Event.sleep 10,
         Event.callFetch "w6"]) :=
  exhaustion_absence () "w6" () c6Env none rfl rfl rfl
    (fun _ _ => rfl)

/-- C7: the function always terminates with a value; any non-absence
result is an identifier delivered by the probe or by one of the (at most
`max_retries`) fetch attempts, so every failure path — probe failure,
create failure, retry exhaustion — converges on `none`; and when session
construction raises, the top-level handler returns `none` with no call
made at all. -/
theorem no_exception_absence {α β : Type} (user : α) (user_address : String)
    (headers : β) (env : Env) :
    ((create_and_fetch_identity user user_address headers env).1 = none
      ∨ ∃ v, (create_and_fetch_identity user user_address headers env).1 = some v
          ∧ (resultOf env.probe = some v
             ∨ ∃ i, i < max_retries ∧ resultOf (env.fetch i) = some v))
    ∧ create_and_fetch_identity user user_address headers
        { env with sessionErr := true } = (none, []) := by
  constructor
  · unfold create_and_fetch_identity
    by_cases hs : env.sessionErr
    · simp [hs]
    · simp only [hs, Bool.false_eq_true, if_false]
      cases hp : resultOf env.probe with
      | some v => exact Or.inr ⟨v, rfl, Or.inl rfl⟩
      | none =>
        cases hc : env.create with
        | err => exact Or.inl rfl
        | resp statusOk body =>
          cases statusOk with
          | false => exact Or.inl rfl
          | true =>
            cases body with
            | none => exact Or.inl rfl
            | some b =>
              simp only [if_true]
              rcases fetchAttempts_provenance env user_address
                  (List.range max_retries) with h | ⟨v, hv, i, hi, hres⟩
              · exact Or.inl h
              · exact Or.inr ⟨v, hv,
                  Or.inr ⟨i, List.mem_range.mp hi, hres⟩⟩
  · rfl

/-- C8: the returned value and the issued requests depend only on
`user_address` and on the environment's behaviour — two calls differing
only in `user` and/or `headers` are identical. -/
theorem result_ignores_user_headers {α α' β β' : Type} (u₁ : α) (u₂ : α')
    (h₁ : β) (h₂ : β') (user_address : String) (env : Env) :
    create_and_fetch_identity u₁ user_address h₁ env =
      create_and_fetch_identity u₂ user_address h₂ env := rfl

/-- C9: every falsy `data` value — the empty string, the number `0`,
`false`, and the absent field — fails the shared truthiness test, so a
successful response carrying it yields no identifier (for the probe and
for every fetch attempt alike, both of which go through `resultOf`); in
particular a probe response `{"data": ""}` leads to the create call. -/
theorem falsy_data_means_no_identity :
    dataOk (some (Json.jstr "")) = false
    ∧ dataOk (some (Json.jnum 0)) = false
    ∧ dataOk (some (Json.jbool false)) = false
    ∧ dataOk none = false
    ∧ resultOf (Outcome.resp true (some (some (Json.jstr "")))) = none
    ∧ create_and_fetch_identity () "w9" () c9Env =
        (none, [Event.callFetch "w9", Event.callCreate "w9"]) := by
  refine ⟨rfl, by decide, rfl, rfl, rfl, rfl⟩

/-- C10: when the create call's status passes but its body cannot be
parsed as JSON, the raise from `.json()` reaches the top-level handler:
the function returns `None` and the trace stops at the create call — no
settle sleep and no fetch attempt follows. -/
theorem create_unparseable_aborts {α β : Type} (user : α) (user_address : String)
    (headers : β) (env : Env) (hs : env.sessionErr = false)
    (hp : resultOf env.probe = none)
    (hc : env.create = Outcome.resp true none) :
    create_and_fetch_identity user user_address headers env =
      (none, [Event.callFetch user_address, Event.callCreate user_address]) := by
  unfold create_and_fetch_identity
  rw [hs]
  simp [hp, hc]

/-- C10 witness: probe answers the sentinel, create answers 2xx with an
unparseable body. -/
theorem create_unparseable_aborts_witness :
    create_and_fetch_identity () "wt" () c10Env =
      (none, [Event.callFetch "wt", Event.callCreate "wt"]) :=
  create_unparseable_aborts () "wt" () c10Env rfl rfl rfl
